import Mathlib

/-!
# Verification of the YouTube transcript HTTP service (`src/app.py`)

Shallow embedding of the Flask service in `src/app.py`.  The external
`youtube_transcript_api` library is treated as an opaque oracle (`YTApi`):
each call site in the source corresponds to consulting a field of the
oracle, which may return segments, transcript handles, or signal one of
the library's exception classes (`ApiError`).  The id extractor, the
fallback resolver `get_available_transcript`, and the `/get_transcript`
route handler are translated from the source line by line.
-/

set_option autoImplicit false

namespace YTService

/-! ## Data model -/

/-- One caption segment.  The source only consumes the `text` field of each
segment dict (`entry['text']`, line 105); the timing fields (`start`,
`duration`) are never read by this system, so they are not modelled. -/
structure Segment where
  text : String
deriving DecidableEq

/-- The exception classes of `youtube_transcript_api._errors` that the source
imports and handles (line 3-5), plus a catch-all `other` for any further
exception reaching an `except Exception` clause.  Each carries the string
rendering `str(e)` used when the message is interpolated into a response. -/
inductive ApiError where
  | noTranscriptFound (msg : String)
  | transcriptsDisabled (msg : String)
  | videoUnavailable (msg : String)
  | other (msg : String)
deriving DecidableEq

/-- `str(e)` for an exception value. -/
def ApiError.message : ApiError → String
  | .noTranscriptFound m => m
  | .transcriptsDisabled m => m
  | .videoUnavailable m => m
  | .other m => m

/-- A transcript handle after `.translate('en')` (line 53).  The source only
ever calls `.fetch()` on a translated handle, so the model records the
language code and the outcome of that fetch. -/
structure TranslatedTranscript where
  language_code : String
  fetchResult : Except ApiError (List Segment)

/-- A transcript handle as yielded by the enumeration (`list_transcripts`).
`language_code` and manual/generated provenance are metadata; `fetchResult`
is the outcome of `.fetch()` (line 55), and `translateResult lang` the
outcome of `.translate(lang)` (line 53), each possibly an exception. -/
structure Transcript where
  language_code : String
  is_generated : Bool
  fetchResult : Except ApiError (List Segment)
  translateResult : String → Except ApiError TranslatedTranscript

/-- The opaque upstream capability `YouTubeTranscriptApi`: the two
module-level calls the source makes, as oracle functions of the video id. -/
structure YTApi where
  get_transcript : String → List String → Except ApiError (List Segment)
  list_transcripts : String → Except ApiError (List Transcript)

/-! ## Video-id extraction (`extract_video_id`, lines 16-22)

The source searches the URL with the Python regex
`(?:v=|/v/|youtu\.be/)([^"&?/\s]{11})` and returns group 1 of the leftmost
match, or `None`.  The embedding works on the URL's character list:
`matchAt` decides whether the pattern matches at one position (the three
prefix alternatives are mutually exclusive since they begin with distinct
characters), and `searchId` scans positions left to right. -/

/-- Python's str-pattern `\s`: Unicode whitespace, the exact set
`str.isspace()` accepts — U+0009-U+000D, U+001C-U+001F, U+0020, U+0085
(NEL), U+00A0 (no-break space), U+1680, U+2000-U+200A, U+2028, U+2029,
U+202F, U+205F and U+3000. -/
def isSpaceChar (c : Char) : Bool :=
  decide ((9 ≤ c.toNat ∧ c.toNat ≤ 13) ∨ (28 ≤ c.toNat ∧ c.toNat ≤ 31) ∨
    c.toNat = 32 ∨ c.toNat = 133 ∨ c.toNat = 160 ∨ c.toNat = 5760 ∨
    (8192 ≤ c.toNat ∧ c.toNat ≤ 8202) ∨ c.toNat = 8232 ∨ c.toNat = 8233 ∨
    c.toNat = 8239 ∨ c.toNat = 8287 ∨ c.toNat = 12288)

/-- Membership in the regex character class `[^"&?/\s]` (`Char.ofNat 34` is
the double-quote character). -/
def isIdChar (c : Char) : Bool :=
  !(c == Char.ofNat 34 || c == '&' || c == '?' || c == '/' || isSpaceChar c)

/-- Consume exactly `n` characters of the class `[^"&?/\s]` from the front of
the list; `none` if fewer are available or one is outside the class. -/
def takeId : Nat → List Char → Option (List Char)
  | 0, _ => some []
  | _ + 1, [] => none
  | n + 1, c :: cs => if isIdChar c then (takeId n cs).map (c :: ·) else none

/-- Boolean prefix test on character lists. -/
def isPrefixCL : List Char → List Char → Bool
  | [], _ => true
  | _ :: _, [] => false
  | a :: as, b :: bs => a == b && isPrefixCL as bs

/-- Does the regex match at this position?  Try the alternatives
`v=`, `/v/`, `youtu.be/` and then the 11-character group. -/
def matchAt (s : List Char) : Option (List Char) :=
  if isPrefixCL ['v', '='] s then takeId 11 (s.drop 2)
  else if isPrefixCL ['/', 'v', '/'] s then takeId 11 (s.drop 3)
  else if isPrefixCL ['y', 'o', 'u', 't', 'u', '.', 'b', 'e', '/'] s then takeId 11 (s.drop 9)
  else none

/-- `re.search`: the match group at the leftmost matching position. -/
def searchId : List Char → Option (List Char)
  | [] => none
  | c :: rest =>
    match matchAt (c :: rest) with
    | some g => some g
    | none => searchId rest

/-- `extract_video_id(url)` (lines 16-22): group 1 of the leftmost regex
match, else `None`. -/
def extract_video_id (url : String) : Option String :=
  match searchId url.toList with
  | some g => some (String.mk g)
  | none => none

/-! ## Transcript resolver (`get_available_transcript`, lines 24-62)

Control flow of the source, as `Except`-values.  The outer
`except NoTranscriptFound` (line 32) routes only that exception class to
the enumeration path; any other exception from the direct fetch
propagates.  Inside the enumeration path, the blanket
`except Exception` (lines 57-59) converts *every* failure — from
`list_transcripts`, from `find_manually_created_transcript`, from
`translate` or `fetch` — into a fresh `NoTranscriptFound` with the message
of line 59.  The final `raise` at line 62 is unreachable: the inner block
always returns or raises. -/

/-- The fixed fallback language list of line 47. -/
def fallback_languages : List String := ["es", "fr", "de", "zh", "ja", "ar"]

/-- Python substring containment, `needle in hay`, on character lists. -/
def isSubstringCL (needle : List Char) : List Char → Bool
  | [] => needle.isEmpty
  | c :: rest => isPrefixCL needle (c :: rest) || isSubstringCL needle rest

/-- Python's `needle in hay` on strings (line 51 tests `'en' not in
transcript.language_code`). -/
def pyContains (needle hay : String) : Bool :=
  isSubstringCL needle.toList hay.toList

/-- Modelled from the spec: the library call
`transcript_list.find_transcript(codes)` (line 41) is not part of this
repository; per the spec it "search[es] the enumeration for a transcript
in a designated ... language": for each requested code in order, the first
enumerated transcript carrying exactly that language code. -/
def findByCode : List Transcript → String → Option Transcript
  | [], _ => none
  | t :: ts, c => if t.language_code = c then some t else findByCode ts c

/-- Modelled from the spec: `transcript_list.find_transcript(codes)`,
searching the requested codes in preference order. -/
def find_transcript (L : List Transcript) : List String → Option Transcript
  | [] => none
  | c :: cs =>
    match findByCode L c with
    | some t => some t
    | none => find_transcript L cs

/-- Modelled from the spec: as `findByCode` but restricted to
manually-created transcripts ("a caption track authored by a human rather
than generated automatically"). -/
def findManualByCode : List Transcript → String → Option Transcript
  | [], _ => none
  | t :: ts, c =>
    if t.is_generated = false ∧ t.language_code = c then some t
    else findManualByCode ts c

/-- Modelled from the spec: the library call
`transcript_list.find_manually_created_transcript(codes)` (line 47):
search for a manually-created transcript in any of the fixed fallback
list of language codes, in preference order. -/
def find_manually_created_transcript (L : List Transcript) : List String → Option Transcript
  | [] => none
  | c :: cs =>
    match findManualByCode L c with
    | some t => some t
    | none => find_manually_created_transcript L cs

/-- The `NoTranscriptFound` raised at line 59 after any failure on the
enumeration path. -/
def no_transcript_error (video_id : String) : ApiError :=
  .noTranscriptFound ("Transcript not found in any language for video ID " ++ video_id)

/-- Lines 50-55 applied to a found candidate, under the surrounding
`except Exception` (lines 57-59): if `'en'` is not a substring of the
candidate's language code, translate to `'en'` and fetch the translated
handle, otherwise fetch the candidate directly; any exception on the way
becomes `no_transcript_error`. -/
def materialize_candidate (video_id : String) (t : Transcript) : Except ApiError (List Segment) :=
  if pyContains "en" t.language_code then
    match t.fetchResult with
    | .ok segs => .ok segs
    | .error _ => .error (no_transcript_error video_id)
  else
    match t.translateResult "en" with
    | .error _ => .error (no_transcript_error video_id)
    | .ok tt =>
      match tt.fetchResult with
      | .ok segs => .ok segs
      | .error _ => .error (no_transcript_error video_id)

/-- `get_available_transcript(video_id)` (lines 24-62). -/
def get_available_transcript (api : YTApi) (video_id : String) : Except ApiError (List Segment) :=
  match api.get_transcript video_id ["en"] with
  | .ok segs => .ok segs
  | .error (.noTranscriptFound _) =>
    match api.list_transcripts video_id with
    | .error _ => .error (no_transcript_error video_id)
    | .ok transcript_list =>
      match
        (match find_transcript transcript_list ["hi"] with
         | some t => some t
         | none => find_manually_created_transcript transcript_list fallback_languages) with
      | some t => materialize_candidate video_id t
      | none => .error (no_transcript_error video_id)
  | .error e => .error e

/-! ## The `/get_transcript` route (`get_transcript`, lines 71-120) -/

/-- The JSON bodies the handler can produce: `jsonify({'error': ...})`,
`jsonify({'error': ..., 'video_id': ...})`, and the success body of
lines 109-113. -/
inductive ResponseBody where
  | errorOnly (error : String)
  | errorWithId (error : String) (video_id : String)
  | success (transcript : String) (video_id : String) (length : Nat)
deriving DecidableEq

/-- An HTTP response: status code and JSON body. -/
structure HttpResponse where
  status : Nat
  body : ResponseBody
deriving DecidableEq

/-- Line 105: `" ".join([entry['text'] for entry in transcript])`. -/
def join_texts (segs : List Segment) : String :=
  String.intercalate " " (segs.map Segment.text)

/-- The `/get_transcript` handler (lines 71-120).  `urlParam` is
`request.args.get('url')`: `none` when the query parameter is absent.
Python's `if not video_url` (line 75) treats the empty string like an
absent parameter.  The `except` clauses of lines 87-102 order the
classification: `TranscriptsDisabled` → 403, `VideoUnavailable` → 404,
anything else → 500 with the exception's message interpolated. -/
def get_transcript_route (api : YTApi) (urlParam : Option String) : HttpResponse :=
  match urlParam with
  | none => ⟨400, .errorOnly "You must provide a YouTube video URL."⟩
  | some video_url =>
    if video_url = "" then ⟨400, .errorOnly "You must provide a YouTube video URL."⟩
    else
      match extract_video_id video_url with
      | none => ⟨400, .errorOnly "Invalid YouTube URL format."⟩
      | some video_id =>
        match get_available_transcript api video_id with
        | .error (.transcriptsDisabled _) =>
          ⟨403, .errorWithId "Transcripts are disabled for this video." video_id⟩
        | .error (.videoUnavailable _) =>
          ⟨404, .errorWithId "Video is unavailable." video_id⟩
        | .error e =>
          ⟨500, .errorWithId ("Failed to retrieve transcript: " ++ e.message) video_id⟩
        | .ok transcript =>
          ⟨200, .success (join_texts transcript) video_id (join_texts transcript).length⟩

/-! ## Concrete oracle instances

Used below to exhibit concrete behaviours of the handler. -/

/-- Oracle: the direct English fetch succeeds with two segments. -/
def apiEnglish : YTApi where
  get_transcript := fun _ _ => .ok [{ text := "Hello" }, { text := "world" }]
  list_transcripts := fun _ => .error (.other "unused")

/-- Oracle: the direct English fetch succeeds with no segments. -/
def apiEmptySegs : YTApi where
  get_transcript := fun _ _ => .ok []
  list_transcripts := fun _ => .error (.other "unused")

/-- A Hindi transcript handle whose raw fetch and whose
translation-to-English fetch return different texts. -/
def hindiTranscript : Transcript where
  language_code := "hi"
  is_generated := true
  fetchResult := .ok [{ text := "namaste" }]
  translateResult := fun lang =>
    .ok { language_code := lang, fetchResult := .ok [{ text := "hello" }] }

/-- Oracle: no English transcript; the enumeration offers only Hindi. -/
def apiHindiOnly : YTApi where
  get_transcript := fun _ _ => .error (.noTranscriptFound "no English")
  list_transcripts := fun _ => .ok [hindiTranscript]

/-- A manually-created French transcript handle. -/
def frenchTranscript : Transcript where
  language_code := "fr"
  is_generated := false
  fetchResult := .ok [{ text := "bonjour" }]
  translateResult := fun lang =>
    .ok { language_code := lang, fetchResult := .ok [{ text := "good morning" }] }

/-- Oracle: no English, no Hindi; the enumeration offers a manually-created
French transcript. -/
def apiFrenchManual : YTApi where
  get_transcript := fun _ _ => .error (.noTranscriptFound "no English")
  list_transcripts := fun _ => .ok [frenchTranscript]

/-- Oracle: captions disabled, signalled by the direct fetch. -/
def apiDisabledDirect : YTApi where
  get_transcript := fun _ _ =>
    .error (.transcriptsDisabled "Subtitles are disabled for this video")
  list_transcripts := fun _ => .error (.other "unused")

/-- Oracle: the direct fetch reports no English transcript, and the
enumeration call itself signals that captions are disabled. -/
def apiDisabledOnList : YTApi where
  get_transcript := fun _ _ => .error (.noTranscriptFound "no English")
  list_transcripts := fun _ =>
    .error (.transcriptsDisabled "Subtitles are disabled for this video")

/-- Oracle: video unavailable, signalled by the direct fetch. -/
def apiUnavailableDirect : YTApi where
  get_transcript := fun _ _ => .error (.videoUnavailable "The video is unavailable")
  list_transcripts := fun _ => .error (.other "unused")

/-- Oracle: the direct fetch reports no English transcript, and the
enumeration call itself signals that the video is unavailable. -/
def apiUnavailableOnList : YTApi where
  get_transcript := fun _ _ => .error (.noTranscriptFound "no English")
  list_transcripts := fun _ => .error (.videoUnavailable "The video is unavailable")

/-- Oracle: no English transcript and an empty enumeration — the video has
no transcript in any language. -/
def apiNoTranscripts : YTApi where
  get_transcript := fun _ _ => .error (.noTranscriptFound "no English")
  list_transcripts := fun _ => .ok []

/-! ## Lemmas about the id extractor -/

/-- The regex matches nowhere in the empty string. -/
theorem matchAt_nil : matchAt [] = none := rfl

/-- Consuming a valid 11-character block succeeds and returns the block. -/
theorem takeId_append (t b : List Char) (h : ∀ c ∈ t, isIdChar c = true) :
    takeId t.length (t ++ b) = some t := by
  induction t with
  | nil => rfl
  | cons c cs ih =>
    have ih' := ih (fun x hx => h x (List.mem_cons_of_mem c hx))
    simp [takeId, h c (List.mem_cons_self c cs), ih']

/-- Inversion for `takeId`: a successful result is an 11-valid-character
prefix of the input. -/
theorem takeId_some_inv (n : Nat) (l g : List Char) (h : takeId n l = some g) :
    g.length = n ∧ (∀ c ∈ g, isIdChar c = true) ∧ l = g ++ l.drop n := by
  induction n generalizing l g with
  | zero =>
    have h0 : takeId 0 l = some [] := rfl
    rw [h0] at h
    obtain rfl : ([] : List Char) = g := by injection h
    simp
  | succ m ih =>
    cases l with
    | nil => simp [takeId] at h
    | cons c cs =>
      simp only [takeId] at h
      by_cases hc : isIdChar c = true
      · rw [if_pos hc] at h
        cases hg : takeId m cs with
        | none => rw [hg] at h; simp at h
        | some g' =>
          rw [hg] at h
          have hg2 : c :: g' = g := by
            have hm : Option.map (fun x => c :: x) (some g') = some (c :: g') := rfl
            rw [hm] at h
            injection h
          subst hg2
          obtain ⟨hlen, hchars, heq⟩ := ih cs g' hg
          refine ⟨by simp [hlen], ?_, ?_⟩
          · intro x hx
            rcases List.mem_cons.mp hx with rfl | hx'
            · exact hc
            · exact hchars x hx'
          · simpa [List.drop_succ_cons] using heq
      · rw [if_neg hc] at h
        cases h

/-- A true prefix test decomposes the string. -/
theorem isPrefixCL_eq_append (p s : List Char) (h : isPrefixCL p s = true) :
    s = p ++ s.drop p.length := by
  induction p generalizing s with
  | nil => simp
  | cons a as ih =>
    cases s with
    | nil => simp [isPrefixCL] at h
    | cons b bs =>
      simp only [isPrefixCL, Bool.and_eq_true, beq_iff_eq] at h
      obtain ⟨rfl, h2⟩ := h
      simp only [List.length_cons, List.drop_succ_cons, List.cons_append,
        List.cons.injEq, true_and]
      exact ih bs h2

/-- The regex matches at the start of `p ++ t ++ b` for each accepted prefix
`p` and valid 11-character token `t`, yielding exactly `t`. -/
theorem matchAt_pattern (p t b : List Char)
    (hp : p = ['v', '='] ∨ p = ['/', 'v', '/'] ∨
      p = ['y', 'o', 'u', 't', 'u', '.', 'b', 'e', '/'])
    (hlen : t.length = 11) (hchars : ∀ c ∈ t, isIdChar c = true) :
    matchAt (p ++ t ++ b) = some t := by
  have htake : takeId 11 (t ++ b) = some t := by
    rw [← hlen]; exact takeId_append t b hchars
  rcases hp with rfl | rfl | rfl
  · simp [matchAt, isPrefixCL, htake]
  · simp [matchAt, isPrefixCL, htake]
  · simp [matchAt, isPrefixCL, htake]

/-- Inversion for `matchAt`: a match yields an 11-valid-character group
immediately after one of the three accepted prefixes. -/
theorem matchAt_some_inv (s g : List Char) (h : matchAt s = some g) :
    g.length = 11 ∧ (∀ c ∈ g, isIdChar c = true) ∧
      ∃ p rest, (p = ['v', '='] ∨ p = ['/', 'v', '/'] ∨
        p = ['y', 'o', 'u', 't', 'u', '.', 'b', 'e', '/']) ∧ s = p ++ g ++ rest := by
  unfold matchAt at h
  split_ifs at h with h1 h2 h3
  · obtain ⟨hlen, hchars, hdrop⟩ := takeId_some_inv 11 (s.drop 2) g h
    refine ⟨hlen, hchars, ['v', '='], (s.drop 2).drop 11, Or.inl rfl, ?_⟩
    have hs := isPrefixCL_eq_append _ _ h1
    rw [List.append_assoc, ← hdrop]
    simpa using hs
  · obtain ⟨hlen, hchars, hdrop⟩ := takeId_some_inv 11 (s.drop 3) g h
    refine ⟨hlen, hchars, ['/', 'v', '/'], (s.drop 3).drop 11, Or.inr (Or.inl rfl), ?_⟩
    have hs := isPrefixCL_eq_append _ _ h2
    rw [List.append_assoc, ← hdrop]
    simpa using hs
  · obtain ⟨hlen, hchars, hdrop⟩ := takeId_some_inv 11 (s.drop 9) g h
    refine ⟨hlen, hchars, ['y', 'o', 'u', 't', 'u', '.', 'b', 'e', '/'],
      (s.drop 9).drop 11, Or.inr (Or.inr rfl), ?_⟩
    have hs := isPrefixCL_eq_append _ _ h3
    rw [List.append_assoc, ← hdrop]
    simpa using hs

/-- `searchId` returns the group of the leftmost matching position. -/
theorem searchId_eq_of_matchAt (k : Nat) (l g : List Char)
    (hnone : ∀ i, i < k → matchAt (l.drop i) = none)
    (hk : matchAt (l.drop k) = some g) :
    searchId l = some g := by
  induction k generalizing l with
  | zero =>
    rw [List.drop_zero] at hk
    cases l with
    | nil => rw [matchAt_nil] at hk; cases hk
    | cons c r => simp [searchId, hk]
  | succ m ih =>
    cases l with
    | nil => rw [List.drop_nil, matchAt_nil] at hk; cases hk
    | cons c r =>
      have h0 : matchAt (c :: r) = none := by
        simpa using hnone 0 (Nat.succ_pos m)
      simp only [searchId, h0]
      rw [List.drop_succ_cons] at hk
      exact ih r (fun i hi => by
        simpa [List.drop_succ_cons] using hnone (i + 1) (Nat.succ_lt_succ hi)) hk

/-- If the scan fails, the regex matches at no position. -/
theorem searchId_none_matchAt (l : List Char) (h : searchId l = none) :
    ∀ k, matchAt (l.drop k) = none := by
  induction l with
  | nil => intro k; rw [List.drop_nil]; exact matchAt_nil
  | cons c r ih =>
    have h' : matchAt (c :: r) = none ∧ searchId r = none := by
      cases hm : matchAt (c :: r) with
      | some g => simp [searchId, hm] at h
      | none => simp only [searchId, hm] at h; exact ⟨rfl, h⟩
    intro k
    cases k with
    | zero => exact h'.1
    | succ m => rw [List.drop_succ_cons]; exact ih h'.2 m

/-- Inversion for the scan: a found group comes from a match at some
position. -/
theorem searchId_some_inv (l g : List Char) (h : searchId l = some g) :
    ∃ a suf, l = a ++ suf ∧ matchAt suf = some g := by
  induction l with
  | nil => simp [searchId] at h
  | cons c r ih =>
    cases hm : matchAt (c :: r) with
    | some g' =>
      simp only [searchId, hm, Option.some.injEq] at h
      exact ⟨[], c :: r, by simp, by rw [hm, h]⟩
    | none =>
      simp only [searchId, hm] at h
      obtain ⟨a, suf, ha, hsuf⟩ := ih h
      exact ⟨c :: a, suf, by rw [ha]; rfl, hsuf⟩

/-- If the URL contains an accepted prefix followed by a valid
11-character token, the scan finds some group. -/
theorem searchId_isSome_of_pattern (l : List Char)
    (h : ∃ a p t b, (p = ['v', '='] ∨ p = ['/', 'v', '/'] ∨
        p = ['y', 'o', 'u', 't', 'u', '.', 'b', 'e', '/']) ∧
      l = a ++ p ++ t ++ b ∧ t.length = 11 ∧ ∀ c ∈ t, isIdChar c = true) :
    ∃ g, searchId l = some g := by
  obtain ⟨a, p, t, b, hp, hl, hlen, hchars⟩ := h
  have hmatch : matchAt (l.drop a.length) = some t := by
    have : l.drop a.length = p ++ t ++ b := by
      rw [hl, List.append_assoc, List.append_assoc, List.drop_left, ← List.append_assoc]
    rw [this]
    exact matchAt_pattern p t b hp hlen hchars
  cases hs : searchId l with
  | some g => exact ⟨g, rfl⟩
  | none => rw [searchId_none_matchAt l hs a.length] at hmatch; cases hmatch

/-- The extractor finds nothing in the empty URL. -/
theorem extract_video_id_empty : extract_video_id "" = none := rfl

/-- A URL from which an id was extracted is non-empty. -/
theorem url_ne_empty (url video_id : String) (h : extract_video_id url = some video_id) :
    url ≠ "" := by
  intro he
  subst he
  rw [extract_video_id_empty] at h
  cases h

/-! ## Lemmas about the resolver -/

/-- A transcript found by `findByCode` carries the requested code. -/
theorem findByCode_code (L : List Transcript) (c : String) (t : Transcript)
    (h : findByCode L c = some t) : t.language_code = c := by
  induction L with
  | nil => cases h
  | cons x xs ih =>
    simp only [findByCode] at h
    by_cases hx : x.language_code = c
    · rw [if_pos hx] at h
      obtain rfl : x = t := by injection h
      exact hx
    · rw [if_neg hx] at h
      exact ih h

/-- A transcript found by `find_transcript` carries one of the requested
codes. -/
theorem find_transcript_code_mem (L : List Transcript) (codes : List String) (t : Transcript)
    (h : find_transcript L codes = some t) : t.language_code ∈ codes := by
  induction codes with
  | nil => cases h
  | cons c cs ih =>
    simp only [find_transcript] at h
    cases hf : findByCode L c with
    | some t' =>
      rw [hf] at h
      obtain rfl : t' = t := by injection h
      rw [findByCode_code L c t' hf]
      exact List.mem_cons_self c cs
    | none =>
      rw [hf] at h
      exact List.mem_cons_of_mem c (ih h)

/-- A transcript found by `findManualByCode` carries the requested code. -/
theorem findManualByCode_code (L : List Transcript) (c : String) (t : Transcript)
    (h : findManualByCode L c = some t) : t.language_code = c := by
  induction L with
  | nil => cases h
  | cons x xs ih =>
    simp only [findManualByCode] at h
    by_cases hx : x.is_generated = false ∧ x.language_code = c
    · rw [if_pos hx] at h
      obtain rfl : x = t := by injection h
      exact hx.2
    · rw [if_neg hx] at h
      exact ih h

/-- A transcript found by `find_manually_created_transcript` carries one of
the requested codes. -/
theorem find_manual_code_mem (L : List Transcript) (codes : List String) (t : Transcript)
    (h : find_manually_created_transcript L codes = some t) : t.language_code ∈ codes := by
  induction codes with
  | nil => cases h
  | cons c cs ih =>
    simp only [find_manually_created_transcript] at h
    cases hf : findManualByCode L c with
    | some t' =>
      rw [hf] at h
      obtain rfl : t' = t := by injection h
      rw [findManualByCode_code L c t' hf]
      exact List.mem_cons_self c cs
    | none =>
      rw [hf] at h
      exact List.mem_cons_of_mem c (ih h)

/-- Any candidate produced on the enumeration path — through the Hindi
search or the manual fallback search — has a language code among
`hi, es, fr, de, zh, ja, ar`; none of those contains `en` as a substring,
so the `'en' not in ...` test of line 51 is positive. -/
theorem candidate_not_en (L : List Transcript) (t : Transcript)
    (h : find_transcript L ["hi"] = some t ∨
      (find_transcript L ["hi"] = none ∧
        find_manually_created_transcript L fallback_languages = some t)) :
    pyContains "en" t.language_code = false := by
  have hmem : t.language_code = "hi" ∨ t.language_code ∈ fallback_languages := by
    rcases h with h | ⟨_, h⟩
    · left
      simpa using find_transcript_code_mem L ["hi"] t h
    · right
      exact find_manual_code_mem L fallback_languages t h
  rcases hmem with he | he
  · rw [he]; decide
  · simp only [fallback_languages, List.mem_cons, List.mem_singleton,
      List.not_mem_nil, or_false] at he
    rcases he with h' | h' | h' | h' | h' | h' <;> rw [h'] <;> decide

/-! ## The claims -/

/-- C1: whenever a candidate transcript is found via the enumeration path
(steps 2-4) and its language code is not the primary preferred language
`en`, the resolver materializes the candidate through `translate('en')`:
the returned segments are those of the translated fetch, never the
candidate's raw segments (when the two differ). -/
theorem english_translation_on_fallback (api : YTApi) (video_id m : String)
    (L : List Transcript) (t : Transcript)
    (h1 : api.get_transcript video_id ["en"] = .error (.noTranscriptFound m))
    (h2 : api.list_transcripts video_id = .ok L)
    (h3 : find_transcript L ["hi"] = some t ∨
      (find_transcript L ["hi"] = none ∧
        find_manually_created_transcript L fallback_languages = some t))
    (_h4 : t.language_code ≠ "en") :
    (∀ tt segs, t.translateResult "en" = .ok tt → tt.fetchResult = .ok segs →
      get_available_transcript api video_id = .ok segs)
    ∧ ∀ raw tt segs, t.fetchResult = .ok raw → t.translateResult "en" = .ok tt →
        tt.fetchResult = .ok segs → segs ≠ raw →
        get_available_transcript api video_id ≠ .ok raw := by
  have hres : get_available_transcript api video_id = materialize_candidate video_id t := by
    rcases h3 with h | ⟨hn, h⟩
    · simp [get_available_transcript, h1, h2, h]
    · simp [get_available_transcript, h1, h2, hn, h]
  have hen : pyContains "en" t.language_code = false := candidate_not_en L t h3
  constructor
  · intro tt segs htt hfetch
    rw [hres]
    simp [materialize_candidate, hen, htt, hfetch]
  · intro raw tt segs hraw htt hfetch hne
    rw [hres]
    simp only [materialize_candidate, hen, Bool.false_eq_true, if_false, htt, hfetch]
    intro hh
    exact hne (by injection hh)

/-- C1 witness: a video offering only a Hindi transcript resolves to the
translated English segments, not the raw Hindi ones. -/
theorem english_translation_on_fallback_witness :
    get_available_transcript apiHindiOnly "abcdefghijk" = .ok [{ text := "hello" }] ∧
      get_available_transcript apiHindiOnly "abcdefghijk" ≠ .ok [{ text := "namaste" }] := by
  have h := english_translation_on_fallback apiHindiOnly "abcdefghijk" "no English"
    [hindiTranscript] hindiTranscript rfl rfl (Or.inl rfl) (by decide)
  exact ⟨h.1 _ _ rfl rfl, h.2 _ _ _ rfl rfl rfl (by decide)⟩

/-- C5: the resolver attempts candidates in the source's order, stopping at
the first success: the direct `en` fetch wins outright; on
`NoTranscriptFound` it enumerates, preferring a `hi` transcript over the
manually-created fallback search in `es, fr, de, zh, ja, ar`; each failure
mode of the chain yields the converted no-transcript error. -/
theorem resolution_order (api : YTApi) (video_id : String) :
    (∀ segs, api.get_transcript video_id ["en"] = .ok segs →
      get_available_transcript api video_id = .ok segs)
    ∧ ∀ m, api.get_transcript video_id ["en"] = .error (.noTranscriptFound m) →
        (∀ e, api.list_transcripts video_id = .error e →
          get_available_transcript api video_id = .error (no_transcript_error video_id))
        ∧ ∀ L, api.list_transcripts video_id = .ok L →
            (∀ t, find_transcript L ["hi"] = some t →
              get_available_transcript api video_id = materialize_candidate video_id t)
            ∧ (∀ t, find_transcript L ["hi"] = none →
                find_manually_created_transcript L fallback_languages = some t →
                get_available_transcript api video_id = materialize_candidate video_id t)
            ∧ (find_transcript L ["hi"] = none →
                find_manually_created_transcript L fallback_languages = none →
                get_available_transcript api video_id = .error (no_transcript_error video_id)) := by
  refine ⟨?_, ?_⟩
  · intro segs h
    simp [get_available_transcript, h]
  · intro m hm
    refine ⟨?_, ?_⟩
    · intro e he
      simp [get_available_transcript, hm, he]
    · intro L hL
      refine ⟨?_, ?_, ?_⟩
      · intro t ht
        simp [get_available_transcript, hm, hL, ht]
      · intro t ht hmt
        simp [get_available_transcript, hm, hL, ht, hmt]
      · intro ht hmt
        simp [get_available_transcript, hm, hL, ht, hmt]

/-- C5 witness: with no English and no Hindi on offer, the manual fallback
search finds the French transcript and it is the one materialized. -/
theorem resolution_order_witness :
    get_available_transcript apiFrenchManual "abcdefghijk" =
        materialize_candidate "abcdefghijk" frenchTranscript ∧
      get_available_transcript apiFrenchManual "abcdefghijk" =
        .ok [{ text := "good morning" }] := by
  have h := (((resolution_order apiFrenchManual "abcdefghijk").2 "no English" rfl).2
    [frenchTranscript] rfl).2.1 frenchTranscript rfl rfl
  exact ⟨h, h.trans rfl⟩

/-- C2, counterexample to the claim as stated: the direct fetch reports no
English transcript, and then `list_transcripts` — an upstream call made
during resolution — signals `TranscriptsDisabled`; the blanket
`except Exception` of lines 57-59 converts it to `NoTranscriptFound`, so
the endpoint answers 500, not 403. -/
theorem disabled_after_enumeration_cex :
    apiDisabledOnList.get_transcript "abcdefghijk" ["en"] =
        .error (.noTranscriptFound "no English") ∧
      apiDisabledOnList.list_transcripts "abcdefghijk" =
        .error (.transcriptsDisabled "Subtitles are disabled for this video") ∧
      get_transcript_route apiDisabledOnList (some "v=abcdefghijk") =
        ⟨500, .errorWithId
          "Failed to retrieve transcript: Transcript not found in any language for video ID abcdefghijk"
          "abcdefghijk"⟩ ∧
      (get_transcript_route apiDisabledOnList (some "v=abcdefghijk")).status ≠ 403 :=
  ⟨rfl, rfl, by decide, by decide⟩

/-- C2 (amended): when the *initial direct fetch* signals
`TranscriptsDisabled`, the endpoint responds 403 with the fixed message
and the extracted video id; the exception only propagates from that first
call. -/
theorem disabled_direct_fetch_403 (api : YTApi) (url video_id m : String)
    (h1 : extract_video_id url = some video_id)
    (h2 : api.get_transcript video_id ["en"] = .error (.transcriptsDisabled m)) :
    get_transcript_route api (some url) =
      ⟨403, .errorWithId "Transcripts are disabled for this video." video_id⟩ := by
  have hne := url_ne_empty url video_id h1
  have hres : get_available_transcript api video_id = .error (.transcriptsDisabled m) := by
    simp [get_available_transcript, h2]
  simp [get_transcript_route, hne, h1, hres]

/-- C2 witness. -/
theorem disabled_direct_fetch_403_witness :
    get_transcript_route apiDisabledDirect (some "v=abcdefghijk") =
      ⟨403, .errorWithId "Transcripts are disabled for this video." "abcdefghijk"⟩ :=
  disabled_direct_fetch_403 apiDisabledDirect "v=abcdefghijk" "abcdefghijk"
    "Subtitles are disabled for this video" (by decide) rfl

/-- C3, counterexample to the claim as stated: `VideoUnavailable` signalled
by `list_transcripts` during resolution is converted to
`NoTranscriptFound` by lines 57-59, so the endpoint answers 500,
not 404. -/
theorem unavailable_after_enumeration_cex :
    apiUnavailableOnList.get_transcript "abcdefghijk" ["en"] =
        .error (.noTranscriptFound "no English") ∧
      apiUnavailableOnList.list_transcripts "abcdefghijk" =
        .error (.videoUnavailable "The video is unavailable") ∧
      get_transcript_route apiUnavailableOnList (some "v=abcdefghijk") =
        ⟨500, .errorWithId
          "Failed to retrieve transcript: Transcript not found in any language for video ID abcdefghijk"
          "abcdefghijk"⟩ ∧
      (get_transcript_route apiUnavailableOnList (some "v=abcdefghijk")).status ≠ 404 :=
  ⟨rfl, rfl, by decide, by decide⟩

/-- C3 (amended): when the *initial direct fetch* signals
`VideoUnavailable`, the endpoint responds 404 with the fixed message and
the extracted video id; the exception only propagates from that first
call. -/
theorem unavailable_direct_fetch_404 (api : YTApi) (url video_id m : String)
    (h1 : extract_video_id url = some video_id)
    (h2 : api.get_transcript video_id ["en"] = .error (.videoUnavailable m)) :
    get_transcript_route api (some url) =
      ⟨404, .errorWithId "Video is unavailable." video_id⟩ := by
  have hne := url_ne_empty url video_id h1
  have hres : get_available_transcript api video_id = .error (.videoUnavailable m) := by
    simp [get_available_transcript, h2]
  simp [get_transcript_route, hne, h1, hres]

/-- C3 witness. -/
theorem unavailable_direct_fetch_404_witness :
    get_transcript_route apiUnavailableDirect (some "v=abcdefghijk") =
      ⟨404, .errorWithId "Video is unavailable." "abcdefghijk"⟩ :=
  unavailable_direct_fetch_404 apiUnavailableDirect "v=abcdefghijk" "abcdefghijk"
    "The video is unavailable" (by decide) rfl

/-- C6: when the direct `en` fetch, the `hi` lookup and the manual-fallback
search all fail, the endpoint responds 500 — not 200 — with an error
message carrying the video id. -/
theorem no_transcript_500 (api : YTApi) (url video_id m : String) (L : List Transcript)
    (h1 : extract_video_id url = some video_id)
    (h2 : api.get_transcript video_id ["en"] = .error (.noTranscriptFound m))
    (h3 : api.list_transcripts video_id = .ok L)
    (h4 : find_transcript L ["hi"] = none)
    (h5 : find_manually_created_transcript L fallback_languages = none) :
    get_transcript_route api (some url) =
        ⟨500, .errorWithId
          ("Failed to retrieve transcript: " ++
            ("Transcript not found in any language for video ID " ++ video_id)) video_id⟩ ∧
      (get_transcript_route api (some url)).status ≠ 200 := by
  have hne := url_ne_empty url video_id h1
  have hres : get_available_transcript api video_id = .error (no_transcript_error video_id) := by
    simp [get_available_transcript, h2, h3, h4, h5]
  have hroute : get_transcript_route api (some url) =
      ⟨500, .errorWithId
        ("Failed to retrieve transcript: " ++
          ("Transcript not found in any language for video ID " ++ video_id)) video_id⟩ := by
    simp [get_transcript_route, hne, h1, hres, no_transcript_error, ApiError.message]
  exact ⟨hroute, by rw [hroute]; simp⟩

/-- C6 witness. -/
theorem no_transcript_500_witness :
    get_transcript_route apiNoTranscripts (some "v=abcdefghijk") =
        ⟨500, .errorWithId
          ("Failed to retrieve transcript: " ++
            ("Transcript not found in any language for video ID " ++ "abcdefghijk"))
          "abcdefghijk"⟩ ∧
      (get_transcript_route apiNoTranscripts (some "v=abcdefghijk")).status ≠ 200 :=
  no_transcript_500 apiNoTranscripts "v=abcdefghijk" "abcdefghijk" "no English" []
    (by decide) rfl rfl rfl rfl

/-- C4, counterexample to the claim as stated: the URL
`v=abc defghijk` contains `v=` immediately followed by the 11-character
token `abc defghij`, yet `extract_video_id` returns `none` — the regex
group `[^"&?/\s]{11}` rejects the space inside the token. -/
theorem extract_token_cex :
    ("v=abc defghijk" : String).toList =
        "v=".toList ++ "abc defghij".toList ++ "k".toList ∧
      ("abc defghij" : String).length = 11 ∧
      extract_video_id "v=abc defghijk" = none := by
  refine ⟨by decide, by decide, by decide⟩

/-- C4 (amended): if the URL contains `v=` immediately followed by an
11-character token whose characters all lie outside the excluded class
`"&?/` and whitespace, and no earlier position of the URL starts a regex
match, then `extract_video_id` returns exactly that token. -/
theorem extract_leftmost_token (url : String) (a t b : List Char)
    (hsplit : url.toList = a ++ ['v', '='] ++ t ++ b)
    (hlen : t.length = 11)
    (hchars : ∀ c ∈ t, isIdChar c = true)
    (hleft : ∀ i, i < a.length → matchAt (url.toList.drop i) = none) :
    extract_video_id url = some (String.mk t) := by
  have hdrop : url.toList.drop a.length = ['v', '='] ++ t ++ b := by
    rw [hsplit]
    simp only [List.append_assoc]
    rw [List.drop_left]
  have hmatch : matchAt (url.toList.drop a.length) = some t := by
    rw [hdrop]
    exact matchAt_pattern _ t b (Or.inl rfl) hlen hchars
  have hs := searchId_eq_of_matchAt a.length url.toList t hleft hmatch
  unfold extract_video_id
  rw [hs]

/-- C4 witness: the canonical watch URL. -/
theorem extract_leftmost_token_witness :
    extract_video_id "v=dQw4w9WgXcQ" = some "dQw4w9WgXcQ" := by
  have h := extract_leftmost_token "v=dQw4w9WgXcQ" [] ("dQw4w9WgXcQ".toList) []
    (by decide) (by decide) (by decide) (fun i hi => absurd hi (Nat.not_lt_zero i))
  exact h.trans (by decide)

/-- C7: every 200 response of the handler carries a `transcript` field that
is the resolved segment texts joined with single spaces in order, and a
`length` field equal to the character count of that `transcript`. -/
theorem success_body_shape (api : YTApi) (urlParam : Option String) (b : ResponseBody)
    (h : get_transcript_route api urlParam = ⟨200, b⟩) :
    ∃ url video_id segs, urlParam = some url ∧
      extract_video_id url = some video_id ∧
      get_available_transcript api video_id = .ok segs ∧
      b = .success (join_texts segs) video_id (join_texts segs).length := by
  cases urlParam with
  | none => simp [get_transcript_route] at h
  | some url =>
    by_cases hne : url = ""
    · subst hne
      simp [get_transcript_route] at h
    · cases hx : extract_video_id url with
      | none => simp [get_transcript_route, hne, hx] at h
      | some video_id =>
        cases hres : get_available_transcript api video_id with
        | ok segs =>
          have hroute : get_transcript_route api (some url) =
              ⟨200, .success (join_texts segs) video_id (join_texts segs).length⟩ := by
            simp [get_transcript_route, hne, hx, hres]
          rw [h] at hroute
          have hb : b = .success (join_texts segs) video_id (join_texts segs).length := by
            injection hroute
          exact ⟨url, video_id, segs, rfl, hx, hres, hb⟩
        | error e =>
          cases e with
          | noTranscriptFound msg => simp [get_transcript_route, hne, hx, hres] at h
          | transcriptsDisabled msg => simp [get_transcript_route, hne, hx, hres] at h
          | videoUnavailable msg => simp [get_transcript_route, hne, hx, hres] at h
          | other msg => simp [get_transcript_route, hne, hx, hres] at h

/-- C7 witness. -/
theorem success_body_shape_witness :
    ∃ url video_id segs, (some "v=abcdefghijk" : Option String) = some url ∧
      extract_video_id url = some video_id ∧
      get_available_transcript apiEnglish video_id = .ok segs ∧
      (ResponseBody.success "Hello world" "abcdefghijk" 11) =
        .success (join_texts segs) video_id (join_texts segs).length :=
  success_body_shape apiEnglish (some "v=abcdefghijk")
    (.success "Hello world" "abcdefghijk" 11) (by decide)

/-- C8: a non-empty URL in which no accepted prefix (`v=`, `/v/`,
`youtu.be/`) is followed by 11 characters of the admissible class yields
`none` from the extractor and a 400 invalid-format response. -/
theorem invalid_url_400 (api : YTApi) (url : String) (hne : url ≠ "")
    (hno : ¬ ∃ a p t b, (p = ['v', '='] ∨ p = ['/', 'v', '/'] ∨
        p = ['y', 'o', 'u', 't', 'u', '.', 'b', 'e', '/']) ∧
      url.toList = a ++ p ++ t ++ b ∧ t.length = 11 ∧ ∀ c ∈ t, isIdChar c = true) :
    extract_video_id url = none ∧
      get_transcript_route api (some url) =
        ⟨400, .errorOnly "Invalid YouTube URL format."⟩ := by
  have hs : searchId url.toList = none := by
    cases hs : searchId url.toList with
    | none => rfl
    | some g =>
      obtain ⟨a, suf, hsplit, hm⟩ := searchId_some_inv _ _ hs
      obtain ⟨hlen, hchars, p, rest, hp, hsuf⟩ := matchAt_some_inv _ _ hm
      refine absurd ⟨a, p, g, rest, hp, ?_, hlen, hchars⟩ hno
      rw [hsplit, hsuf]
      simp [List.append_assoc]
  have hex : extract_video_id url = none := by
    unfold extract_video_id
    rw [hs]
  exact ⟨hex, by simp [get_transcript_route, hne, hex]⟩

/-- C8 witness. -/
theorem invalid_url_400_witness :
    extract_video_id "hello world" = none ∧
      get_transcript_route apiEnglish (some "hello world") =
        ⟨400, .errorOnly "Invalid YouTube URL format."⟩ := by
  refine invalid_url_400 apiEnglish "hello world" (by decide) ?_
  intro hcontra
  obtain ⟨g, hg⟩ := searchId_isSome_of_pattern _ hcontra
  rw [show searchId ("hello world" : String).toList = none from by decide] at hg
  cases hg

/-- C9: a present-but-empty `url` query parameter yields the missing-URL
400 response, identical to the response for an absent parameter. -/
theorem empty_url_param_400 (api : YTApi) :
    get_transcript_route api (some "") =
        ⟨400, .errorOnly "You must provide a YouTube video URL."⟩ ∧
      get_transcript_route api (some "") = get_transcript_route api none :=
  ⟨rfl, rfl⟩

/-- C10: a successful resolution with an empty segment list still yields a
200 response with the empty transcript and length 0. -/
theorem empty_transcript_200 (api : YTApi) (url video_id : String)
    (h1 : extract_video_id url = some video_id)
    (h2 : get_available_transcript api video_id = .ok []) :
    get_transcript_route api (some url) = ⟨200, .success "" video_id 0⟩ := by
  have hne := url_ne_empty url video_id h1
  have hj : join_texts [] = "" := rfl
  simp [get_transcript_route, hne, h1, h2, hj]

/-- C10 witness. -/
theorem empty_transcript_200_witness :
    get_transcript_route apiEmptySegs (some "v=abcdefghijk") =
      ⟨200, .success "" "abcdefghijk" 0⟩ :=
  empty_transcript_200 apiEmptySegs "v=abcdefghijk" "abcdefghijk" (by decide) rfl

end YTService
